import Mathlib

/-!
Shallow embedding of the `chat_with_stuff` repository: three chat-with-tool
programs (flight tracker, PostgreSQL, weather), each consisting of a data
provider adapter and a conversation orchestrator (`process_claude_conversation`).
Network effects (the LLM endpoint, the upstream data sources) are modelled as
explicit function parameters ("oracles"); Python exceptions are modelled with
`Except`; `None` returns are modelled with `Option`.
-/

namespace ChatWithStuff

/-! ## Shared conversation data model (messages, content blocks) -/

/-- A content block of an LLM reply: either a text block or a tool-use block
carrying a unique id and the tool input (`α` is the variant-specific input). -/
inductive Block (α : Type) where
  | text (t : String)
  | toolUse (id : String) (input : α)
deriving DecidableEq

/-- A `tool_result` dictionary as appended to `message_history` by the
orchestrators: `tool_use_id`, serialized `content`, and the `is_error` flag
(absent in the source on the success path, modelled as `false` there). -/
structure ToolResultBlock where
  tool_use_id : String
  content : String
  is_error : Bool
deriving DecidableEq

/-- The `content` field of a message in `message_history`: a plain string
(the initial user query), the assistant's block list (`response.content`),
or a list of tool results. -/
inductive MsgContent (α : Type) where
  | str (s : String)
  | blocks (bs : List (Block α))
  | results (rs : List ToolResultBlock)
deriving DecidableEq

/-- One turn of `message_history`. -/
structure Message (α : Type) where
  role : String
  content : MsgContent α
deriving DecidableEq

/-- The shape of an LLM reply the orchestrators depend on:
`stop_reason` and the ordered `content` blocks. -/
structure LLMResponse (α : Type) where
  stop_reason : String
  content : List (Block α)
deriving DecidableEq

/-- Python loop `for c in blocks: if c.type == "text": return c.text` —
the first text block's text, `none` when there is no text block. -/
def firstText {α : Type} : List (Block α) → Option String
  | [] => none
  | .text t :: _ => some t
  | .toolUse _ _ :: rest => firstText rest

/-- Python loop `for c in blocks: if c.type == "text": print(c.text)` —
all text-block texts in order. -/
def allTexts {α : Type} : List (Block α) → List String
  | [] => []
  | .text t :: rest => t :: allTexts rest
  | .toolUse _ _ :: rest => allTexts rest

/-- Ids of the tool-use blocks of a reply, in order. -/
def toolUseIds {α : Type} : List (Block α) → List String
  | [] => []
  | .text _ :: rest => toolUseIds rest
  | .toolUse i _ :: rest => i :: toolUseIds rest

/-- The `tool_use_id`s carried by one message (empty unless it is a
tool-result message). -/
def msgResultIds {α : Type} (m : Message α) : List String :=
  match m.content with
  | .results rs => rs.map (fun r => r.tool_use_id)
  | _ => []

/-- All `tool_use_id`s of tool results occurring in a message history,
in order. -/
def toolResultIds {α : Type} (ms : List (Message α)) : List String :=
  (ms.map msgResultIds).flatten

/-! ## Flight provider: `plane_tracker.get_aircraft_in_box` -/

/-- One raw state vector from the OpenSky response, keeping only the indices
the source reads: `state[0]` icao24, `state[1]` callsign, `state[2]` origin
country, `state[3]` time position (used as the timestamp), `state[5]`
longitude, `state[6]` latitude, `state[7]` altitude, `state[9]` velocity,
`state[10]` heading.  Nullable fields are `Option`s; numeric floats are
modelled as `Rat`. -/
structure RawState where
  icao24 : String
  callsign : Option String
  origin_country : String
  time_position : Option Int
  longitude : Option Rat
  latitude : Option Rat
  altitude : Option Rat
  velocity : Option Rat
  heading : Option Rat
deriving DecidableEq

/-- The decoded JSON body of the OpenSky call: `data.get("states")` may be
absent/null (`none`) or a list of state vectors. -/
structure UpstreamStates where
  states : Option (List RawState)
deriving DecidableEq

/-- The `Aircraft` dataclass of `plane_tracker.py`. -/
structure Aircraft where
  icao24 : String
  callsign : Option String
  origin_country : String
  longitude : Rat
  latitude : Rat
  altitude : Rat
  velocity : Rat
  heading : Rat
  timestamp : Int
deriving DecidableEq

/-- The exception kinds `get_aircraft_in_box` can raise: the `ValueError`s of
input validation, `OpenSkyAPIError`, and the `TypeError` that
`datetime.fromtimestamp(None)` raises (not in the `except` clause of the
source, hence it propagates). -/
inductive FlightError where
  | validationError (msg : String)
  | openSkyAPIError (msg : String)
  | typeError (msg : String)
deriving DecidableEq

/-- Python check `all(state[i] is not None for i in [5, 6, 7, 9, 10])`: the null check the
source applies before constructing an `Aircraft`.  Note that index 3 (the
timestamp source) is not checked. -/
def criticalPresent (s : RawState) : Bool :=
  s.longitude.isSome && s.latitude.isSome && s.altitude.isSome
    && s.velocity.isSome && s.heading.isSome

/-- Python's `str.strip()`: drop leading and trailing whitespace. -/
def pyStrip (s : String) : String :=
  String.mk (((s.data.dropWhile Char.isWhitespace).reverse.dropWhile Char.isWhitespace).reverse)

/-- Python expression `state[1].strip() if state[1] else None` (an empty string is falsy). -/
def stripCallsign (c : Option String) : Option String :=
  c.bind (fun s => if s = "" then none else some (pyStrip s))

/-- The `for state in data["states"]` loop: skip a state when one of the five
checked fields is null, otherwise build an `Aircraft`; a null `state[3]`
(timestamp) makes `datetime.fromtimestamp` raise a `TypeError`, which the
`except (ValueError, KeyError, IndexError)` clause does not catch. -/
def buildAircraftList : List RawState → Except FlightError (List Aircraft)
  | [] => .ok []
  | s :: rest =>
    if criticalPresent s then
      match s.time_position with
      | none => .error (.typeError "an integer is required (got type NoneType)")
      | some t =>
        match buildAircraftList rest with
        | .error e => .error e
        | .ok tail =>
          .ok ({ icao24 := s.icao24
               , callsign := stripCallsign s.callsign
               , origin_country := s.origin_country
               , longitude := s.longitude.getD 0
               , latitude := s.latitude.getD 0
               , altitude := s.altitude.getD 0
               , velocity := s.velocity.getD 0
               , heading := s.heading.getD 0
               , timestamp := t } :: tail)
    else
      buildAircraftList rest

/-- Embedding of `plane_tracker.get_aircraft_in_box`.  The network call is modelled by the
`upstream` parameter (`.error` = a `RequestException`); the second component
of the result counts network calls issued (0 or 1), so that fail-fast
validation is observable. -/
def get_aircraft_in_box (min_lat max_lat min_lon max_lon : Rat)
    (upstream : Except String UpstreamStates) :
    Except FlightError (List Aircraft) × Nat :=
  if ¬ (-90 ≤ min_lat ∧ min_lat ≤ 90 ∧ -90 ≤ max_lat ∧ max_lat ≤ 90) then
    (.error (.validationError "Latitude must be between -90 and 90 degrees"), 0)
  else if ¬ (-180 ≤ min_lon ∧ min_lon ≤ 180 ∧ -180 ≤ max_lon ∧ max_lon ≤ 180) then
    (.error (.validationError "Longitude must be between -180 and 180 degrees"), 0)
  else if min_lat > max_lat ∨ min_lon > max_lon then
    (.error (.validationError "Minimum coordinates must be less than maximum coordinates"), 0)
  else
    match upstream with
    | .error e => (.error (.openSkyAPIError ("API request failed: " ++ e)), 1)
    | .ok data =>
      match data.states with
      | none => (.ok [], 1)
      | some [] => (.ok [], 1)
      | some states => (buildAircraftList states, 1)

/-! ## Weather provider: `weather_service.WeatherService.get_weather` -/

/-- The `WeatherData` dataclass of `weather_service.py`. -/
structure WeatherData where
  temperature : Rat
  feels_like : Rat
  humidity : Int
  pressure : Int
  wind_speed : Rat
  wind_direction : Int
  description : String
  timestamp : Int
  location : String
  country : String
deriving DecidableEq

/-- The exception kinds `get_weather` can raise: the `ValueError` of input
validation and `WeatherAPIError`. -/
inductive WeatherError where
  | validationError (msg : String)
  | weatherAPIError (msg : String)
deriving DecidableEq

/-- Outcome of the OpenWeatherMap network call and parse:
a `RequestException`, a parse failure (`KeyError`/`ValueError`/`TypeError`),
or a well-formed payload. -/
inductive WeatherUpstream where
  | requestFail (e : String)
  | parseFail (e : String)
  | payload (w : WeatherData)
deriving DecidableEq

/-- Embedding of `WeatherService.get_weather`.  Python check `if not city.strip(): raise ValueError` runs
before building the request; the network call is the `upstream` parameter;
the second component counts network calls issued (0 or 1). -/
def get_weather (city : String) (upstream : WeatherUpstream) :
    Except WeatherError WeatherData × Nat :=
  if pyStrip city = "" then
    (.error (.validationError "City name cannot be empty"), 0)
  else
    match upstream with
    | .requestFail e => (.error (.weatherAPIError ("API request failed: " ++ e)), 1)
    | .parseFail e => (.error (.weatherAPIError ("Failed to parse API response: " ++ e)), 1)
    | .payload w => (.ok w, 1)

/-! ## SQL provider: `PostgresManager.execute_query` -/

/-- Connection state of the single lazily established psycopg2 connection:
the durable (committed) database state and the state visible inside the
connection's open transaction. -/
structure PgConn (DB : Type) where
  committed : DB
  current : DB
deriving DecidableEq

/-- Embedding of `PostgresManager.execute_query`: `cur.execute(query)` followed by
`cur.fetchall()` is modelled by the `exec` oracle giving either a
`psycopg2.Error` message or the fetched rows plus the post-statement
database state; on success `conn.commit()` makes that state durable; on
error a `DatabaseError` is raised (its message string is returned) and no
commit happens.  No inspection of the query text occurs. -/
def execute_query {DB Row : Type}
    (exec : String → DB → Except String (List Row × DB))
    (conn : PgConn DB) (query : String) :
    Except String (List Row) × PgConn DB :=
  match exec query conn.current with
  | .error e => (.error ("Failed to execute query: " ++ e), conn)
  | .ok (rows, db') => (.ok rows, { committed := db', current := db' })

/-! ## Flight orchestrator: `chat_with_plane_tracker/main.process_claude_conversation` -/

/-- The tool input the flight orchestrator reads from a tool-use block:
`content.input["min_lat"]` … `content.input["max_lon"]`. -/
structure FlightInput where
  min_lat : Rat
  max_lat : Rat
  min_lon : Rat
  max_lon : Rat
deriving DecidableEq

/-- Exceptions that escape the flight orchestrator: a failing
`client.messages.create` call, or a provider exception — the flight variant
has no `try/except` around `get_aircraft_in_box`, so `ValueError`,
`OpenSkyAPIError` and `TypeError` all propagate. -/
inductive FlightExn where
  | llmError (e : String)
  | providerError (e : FlightError)
deriving DecidableEq

/-- Observable outcome of one flight-orchestrator run: the returned value
(`.ok none` models Python's implicit `return None`; `.error` a propagating
exception), the `message_history` as built when the run ended, and how many
LLM calls and `get_aircraft_in_box` invocations happened. -/
structure FlightRun where
  result : Except FlightExn (Option String)
  history : List (Message FlightInput)
  llmCalls : Nat
  fetchCalls : Nat

namespace Flight

/-- The `for content in response.content` loop of the flight orchestrator:
dispatch each tool-use block to `get_aircraft_in_box` (uncaught exceptions
abort the run), append the tool result, call the LLM again and return its
first text block if any; with no text block the loop continues with the
remaining blocks.  The exhausted loop falls through to the trailing
`for content in response.content: if text: return` over the FIRST reply,
and past it to the implicit `return None`. -/
def toolLoop
    (client : List (Message FlightInput) → Except String (LLMResponse FlightInput))
    (upstream : Nat → Except String UpstreamStates)
    (fmt : List Aircraft → String)
    (response : LLMResponse FlightInput)
    (history : List (Message FlightInput))
    (llm fetched : Nat) :
    List (Block FlightInput) → FlightRun
  | [] => ⟨.ok (firstText response.content), history, llm, fetched⟩
  | .text _ :: rest => toolLoop client upstream fmt response history llm fetched rest
  | .toolUse i input :: rest =>
    match get_aircraft_in_box input.min_lat input.max_lat input.min_lon input.max_lon
        (upstream fetched) with
    | (.error e, _) => ⟨.error (.providerError e), history, llm, fetched + 1⟩
    | (.ok aircraft_list, _) =>
      let history2 := history ++
        [⟨"user", .results [⟨i, fmt aircraft_list, false⟩]⟩]
      match client history2 with
      | .error e => ⟨.error (.llmError e), history2, llm + 1, fetched + 1⟩
      | .ok final_response =>
        match firstText final_response.content with
        | some t => ⟨.ok (some t), history2, llm + 1, fetched + 1⟩
        | none => toolLoop client upstream fmt response history2 (llm + 1) (fetched + 1) rest

/-- Embedding of `process_claude_conversation` of `chat_with_plane_tracker/main.py`.
`client` models `client.messages.create` as a function of the message
history; `upstream` gives the OpenSky response for the n-th provider call;
`fmt` models `str([format_aircraft_for_claude(a) for a in aircraft_list])`
(the serialization text is opaque to the control flow). -/
def process_claude_conversation
    (client : List (Message FlightInput) → Except String (LLMResponse FlightInput))
    (upstream : Nat → Except String UpstreamStates)
    (fmt : List Aircraft → String)
    (user_query : String) : FlightRun :=
  match client [⟨"user", .str user_query⟩] with
  | .error e => ⟨.error (.llmError e), [⟨"user", .str user_query⟩], 1, 0⟩
  | .ok response =>
    let history1 := [⟨"user", .str user_query⟩, ⟨"assistant", .blocks response.content⟩]
    if response.stop_reason = "tool_use" then
      toolLoop client upstream fmt response history1 1 0 response.content
    else
      ⟨.ok (firstText response.content), history1, 1, 0⟩

end Flight

/-! ## SQL orchestrator: `chat_with_postgre/main.process_claude_conversation` -/

/-- Observable outcome of one postgres-orchestrator run (the function is
declared `-> None`, so the observables are: whether an exception propagates,
the texts printed, the `message_history`, the final connection state, and
the LLM / `execute_query` call counts). -/
structure PgRun (DB : Type) where
  outcome : Except String Unit
  printed : List String
  history : List (Message String)
  conn : PgConn DB
  llmCalls : Nat
  execCalls : Nat

namespace Postgres

/-- The `for content in response.content` loop of the postgres orchestrator:
dispatch every tool-use block's `input["query"]` to `execute_query`; on
`DatabaseError` append an error-flagged tool result and continue (no second
LLM call in the `except` branch); on success append the result, call the LLM
again (a failing LLM call is re-raised by the enclosing `except`), print the
text blocks of the final reply, and continue with the remaining blocks. -/
def toolLoop {DB Row : Type}
    (client : List (Message String) → Except String (LLMResponse String))
    (exec : String → DB → Except String (List Row × DB))
    (showRows : List Row → String)
    (printed : List String)
    (history : List (Message String))
    (conn : PgConn DB)
    (llm exd : Nat) :
    List (Block String) → PgRun DB
  | [] => ⟨.ok (), printed, history, conn, llm, exd⟩
  | .text _ :: rest => toolLoop client exec showRows printed history conn llm exd rest
  | .toolUse i q :: rest =>
    match execute_query exec conn q with
    | (.error e, conn') =>
      toolLoop client exec showRows printed
        (history ++ [⟨"user", .results [⟨i, e, true⟩]⟩]) conn' llm (exd + 1) rest
    | (.ok rows, conn') =>
      let history2 := history ++ [⟨"user", .results [⟨i, showRows rows, false⟩]⟩]
      match client history2 with
      | .error e => ⟨.error e, printed, history2, conn', llm + 1, exd + 1⟩
      | .ok final_response =>
        toolLoop client exec showRows (printed ++ allTexts final_response.content)
          history2 conn' (llm + 1) (exd + 1) rest

/-- Embedding of `process_claude_conversation` of `chat_with_postgre/main.py`.
`client` models `client.messages.create`; `exec` and the connection model
`PostgresManager.execute_query` (see `execute_query`); `showRows` models
`str(results)`.  A failing first LLM call is logged and re-raised
(`.error`); with `stop_reason != "tool_use"` nothing further happens. -/
def process_claude_conversation {DB Row : Type}
    (client : List (Message String) → Except String (LLMResponse String))
    (exec : String → DB → Except String (List Row × DB))
    (showRows : List Row → String)
    (conn0 : PgConn DB)
    (user_query : String) : PgRun DB :=
  match client [⟨"user", .str user_query⟩] with
  | .error e => ⟨.error e, [], [⟨"user", .str user_query⟩], conn0, 1, 0⟩
  | .ok response =>
    let history1 := [⟨"user", .str user_query⟩, ⟨"assistant", .blocks response.content⟩]
    if response.stop_reason = "tool_use" then
      toolLoop client exec showRows [] history1 conn0 1 0 response.content
    else
      ⟨.ok (), [], history1, conn0, 1, 0⟩

end Postgres

/-! ## Weather orchestrator: `chat_with_weather/main.process_claude_conversation` -/

/-- Exceptions that escape the weather orchestrator: a failing LLM call, or
the validation `ValueError` of `get_weather` — the inner `except` clause
catches only `WeatherAPIError`, so `ValueError` reaches the outer
`except Exception` and is re-raised. -/
inductive WeatherExn where
  | llmError (e : String)
  | valueError (e : String)
deriving DecidableEq

/-- Observable outcome of one weather-orchestrator run (also declared
`-> None`). -/
structure WeatherRun where
  outcome : Except WeatherExn Unit
  printed : List String
  history : List (Message String)
  llmCalls : Nat
  fetchCalls : Nat

namespace Weather

/-- The `for content in response.content` loop of the weather orchestrator:
dispatch every tool-use block's `input["city"]` to `get_weather`; on
`WeatherAPIError` append an error-flagged tool result and continue; the
validation `ValueError` propagates and aborts the run; on success append
the result, call the LLM again, print the final reply's text blocks, and
continue with the remaining blocks. -/
def toolLoop
    (client : List (Message String) → Except String (LLMResponse String))
    (upstream : Nat → WeatherUpstream)
    (fmt : WeatherData → String)
    (printed : List String)
    (history : List (Message String))
    (llm fetched : Nat) :
    List (Block String) → WeatherRun
  | [] => ⟨.ok (), printed, history, llm, fetched⟩
  | .text _ :: rest => toolLoop client upstream fmt printed history llm fetched rest
  | .toolUse i city :: rest =>
    match get_weather city (upstream fetched) with
    | (.error (.validationError m), _) =>
      ⟨.error (.valueError m), printed, history, llm, fetched + 1⟩
    | (.error (.weatherAPIError m), _) =>
      toolLoop client upstream fmt printed
        (history ++ [⟨"user", .results [⟨i, m, true⟩]⟩]) llm (fetched + 1) rest
    | (.ok w, _) =>
      let history2 := history ++ [⟨"user", .results [⟨i, fmt w, false⟩]⟩]
      match client history2 with
      | .error e => ⟨.error (.llmError e), printed, history2, llm + 1, fetched + 1⟩
      | .ok final_response =>
        toolLoop client upstream fmt (printed ++ allTexts final_response.content)
          history2 (llm + 1) (fetched + 1) rest

/-- Embedding of `process_claude_conversation` of `chat_with_weather/main.py`.
`fmt` models `str(format_weather_for_claude(weather_data))`. -/
def process_claude_conversation
    (client : List (Message String) → Except String (LLMResponse String))
    (upstream : Nat → WeatherUpstream)
    (fmt : WeatherData → String)
    (user_query : String) : WeatherRun :=
  match client [⟨"user", .str user_query⟩] with
  | .error e => ⟨.error (.llmError e), [], [⟨"user", .str user_query⟩], 1, 0⟩
  | .ok response =>
    let history1 := [⟨"user", .str user_query⟩, ⟨"assistant", .blocks response.content⟩]
    if response.stop_reason = "tool_use" then
      toolLoop client upstream fmt [] history1 1 0 response.content
    else
      ⟨.ok (), [], history1, 1, 0⟩

end Weather

/-- The `Aircraft` the loop body constructs from a state vector that passed
the null check (the `getD 0` defaults are never used under that check,
except for the unchecked timestamp). -/
def aircraftOfState (s : RawState) : Aircraft :=
  { icao24 := s.icao24
  , callsign := stripCallsign s.callsign
  , origin_country := s.origin_country
  , longitude := s.longitude.getD 0
  , latitude := s.latitude.getD 0
  , altitude := s.altitude.getD 0
  , velocity := s.velocity.getD 0
  , heading := s.heading.getD 0
  , timestamp := s.time_position.getD 0 }

/-! ## Helper lemmas: unfolding one orchestrator run -/

/-- When every state that passes the five-field null check also has a
non-null timestamp, the state loop succeeds and keeps exactly the states
passing the check. -/
theorem buildAircraftList_ok (states : List RawState)
    (h : ∀ s ∈ states, criticalPresent s → s.time_position.isSome) :
    buildAircraftList states
      = .ok ((states.filter (fun s => criticalPresent s)).map aircraftOfState) := by
  induction states with
  | nil => rfl
  | cons s rest ih =>
    have hrest : ∀ x ∈ rest, criticalPresent x → x.time_position.isSome :=
      fun x hx hc => h x (List.mem_cons_of_mem _ hx) hc
    cases hcrit : criticalPresent s with
    | false => simp [buildAircraftList, hcrit, ih hrest, List.filter_cons]
    | true =>
      have hts := h s (List.mem_cons_self _ _) hcrit
      obtain ⟨t, ht⟩ := Option.isSome_iff_exists.mp hts
      simp [buildAircraftList, hcrit, ht, ih hrest, List.filter_cons,
        aircraftOfState]

/-- A successful first LLM call with `stop_reason = "tool_use"` puts the
flight orchestrator into its tool loop over the reply's blocks. -/
theorem flight_run_tool_use
    (client : List (Message FlightInput) → Except String (LLMResponse FlightInput))
    (upstream : Nat → Except String UpstreamStates)
    (fmt : List Aircraft → String)
    (q : String) (resp : LLMResponse FlightInput)
    (hc : client [⟨"user", .str q⟩] = .ok resp)
    (hs : resp.stop_reason = "tool_use") :
    Flight.process_claude_conversation client upstream fmt q
      = Flight.toolLoop client upstream fmt resp
          [⟨"user", .str q⟩, ⟨"assistant", .blocks resp.content⟩] 1 0 resp.content := by
  unfold Flight.process_claude_conversation
  rw [hc]
  simp [hs]

/-- A successful first LLM call with `stop_reason ≠ "tool_use"` makes the
flight orchestrator return the reply's first text block directly. -/
theorem flight_run_plain
    (client : List (Message FlightInput) → Except String (LLMResponse FlightInput))
    (upstream : Nat → Except String UpstreamStates)
    (fmt : List Aircraft → String)
    (q : String) (resp : LLMResponse FlightInput)
    (hc : client [⟨"user", .str q⟩] = .ok resp)
    (hs : resp.stop_reason ≠ "tool_use") :
    Flight.process_claude_conversation client upstream fmt q
      = ⟨.ok (firstText resp.content),
         [⟨"user", .str q⟩, ⟨"assistant", .blocks resp.content⟩], 1, 0⟩ := by
  unfold Flight.process_claude_conversation
  rw [hc]
  simp [hs]

/-- A successful first LLM call with `stop_reason = "tool_use"` puts the
postgres orchestrator into its tool loop over the reply's blocks. -/
theorem pg_run_tool_use {DB Row : Type}
    (client : List (Message String) → Except String (LLMResponse String))
    (exec : String → DB → Except String (List Row × DB))
    (showRows : List Row → String) (conn0 : PgConn DB)
    (q : String) (resp : LLMResponse String)
    (hc : client [⟨"user", .str q⟩] = .ok resp)
    (hs : resp.stop_reason = "tool_use") :
    Postgres.process_claude_conversation client exec showRows conn0 q
      = Postgres.toolLoop client exec showRows []
          [⟨"user", .str q⟩, ⟨"assistant", .blocks resp.content⟩] conn0 1 0 resp.content := by
  unfold Postgres.process_claude_conversation
  rw [hc]
  simp [hs]

/-- A successful first LLM call with `stop_reason ≠ "tool_use"` makes the
postgres orchestrator finish with nothing printed and nothing dispatched. -/
theorem pg_run_plain {DB Row : Type}
    (client : List (Message String) → Except String (LLMResponse String))
    (exec : String → DB → Except String (List Row × DB))
    (showRows : List Row → String) (conn0 : PgConn DB)
    (q : String) (resp : LLMResponse String)
    (hc : client [⟨"user", .str q⟩] = .ok resp)
    (hs : resp.stop_reason ≠ "tool_use") :
    Postgres.process_claude_conversation client exec showRows conn0 q
      = ⟨.ok (), [],
         [⟨"user", .str q⟩, ⟨"assistant", .blocks resp.content⟩], conn0, 1, 0⟩ := by
  unfold Postgres.process_claude_conversation
  rw [hc]
  simp [hs]

/-- A successful first LLM call with `stop_reason = "tool_use"` puts the
weather orchestrator into its tool loop over the reply's blocks. -/
theorem weather_run_tool_use
    (client : List (Message String) → Except String (LLMResponse String))
    (upstream : Nat → WeatherUpstream)
    (fmt : WeatherData → String)
    (q : String) (resp : LLMResponse String)
    (hc : client [⟨"user", .str q⟩] = .ok resp)
    (hs : resp.stop_reason = "tool_use") :
    Weather.process_claude_conversation client upstream fmt q
      = Weather.toolLoop client upstream fmt []
          [⟨"user", .str q⟩, ⟨"assistant", .blocks resp.content⟩] 1 0 resp.content := by
  unfold Weather.process_claude_conversation
  rw [hc]
  simp [hs]

/-- The function `toolResultIds` distributes over history concatenation. -/
theorem toolResultIds_append {α : Type} (a b : List (Message α)) :
    toolResultIds (a ++ b) = toolResultIds a ++ toolResultIds b := by
  simp [toolResultIds]

/-- The flight tool loop only ever appends tool results whose ids are the
ids of the tool-use blocks it dispatches, in order: the result ids added to
the history are a prefix of the remaining blocks' tool-use ids. -/
theorem flight_toolLoop_resultIds
    (client : List (Message FlightInput) → Except String (LLMResponse FlightInput))
    (upstream : Nat → Except String UpstreamStates)
    (fmt : List Aircraft → String)
    (response : LLMResponse FlightInput) :
    ∀ (blocks : List (Block FlightInput)) (history : List (Message FlightInput))
      (llm fetched : Nat), ∃ k,
      toolResultIds ((Flight.toolLoop client upstream fmt response
          history llm fetched blocks).history)
        = toolResultIds history ++ (toolUseIds blocks).take k := by
  intro blocks
  induction blocks with
  | nil =>
    intro history llm fetched
    exact ⟨0, by simp [Flight.toolLoop, toolUseIds]⟩
  | cons b rest ih =>
    intro history llm fetched
    cases b with
    | text t =>
      obtain ⟨k, hk⟩ := ih history llm fetched
      exact ⟨k, by rw [Flight.toolLoop]; exact hk⟩
    | toolUse i input =>
      rw [Flight.toolLoop]
      cases hga : get_aircraft_in_box input.min_lat input.max_lat input.min_lon
          input.max_lon (upstream fetched) with
      | mk r n =>
        cases r with
        | error e => exact ⟨0, by simp [toolUseIds]⟩
        | ok l =>
          dsimp only
          cases hcl : client (history ++
              [⟨"user", .results [⟨i, fmt l, false⟩]⟩]) with
          | error e =>
            refine ⟨1, ?_⟩
            dsimp only
            simp [toolResultIds_append, toolResultIds, msgResultIds, toolUseIds]
          | ok fresp =>
            cases hft : firstText fresp.content with
            | some t =>
              refine ⟨1, ?_⟩
              dsimp only
              rw [hft]
              simp [toolResultIds_append, toolResultIds, msgResultIds, toolUseIds]
            | none =>
              obtain ⟨k, hk⟩ := ih
                (history ++ [⟨"user", .results [⟨i, fmt l, false⟩]⟩])
                (llm + 1) (fetched + 1)
              refine ⟨k + 1, ?_⟩
              dsimp only
              rw [hft, hk, toolResultIds_append]
              simp [toolResultIds, msgResultIds, toolUseIds, List.take_succ_cons,
                List.append_assoc]

/-- The postgres tool loop analogue of `flight_toolLoop_resultIds`: on the
success path and on the error path alike, each appended tool result carries
the id of the dispatched tool-use block, in dispatch order. -/
theorem pg_toolLoop_resultIds {DB Row : Type}
    (client : List (Message String) → Except String (LLMResponse String))
    (exec : String → DB → Except String (List Row × DB))
    (showRows : List Row → String) :
    ∀ (blocks : List (Block String)) (printed : List String)
      (history : List (Message String)) (conn : PgConn DB) (llm exd : Nat), ∃ k,
      toolResultIds ((Postgres.toolLoop client exec showRows printed
          history conn llm exd blocks).history)
        = toolResultIds history ++ (toolUseIds blocks).take k := by
  intro blocks
  induction blocks with
  | nil =>
    intro printed history conn llm exd
    exact ⟨0, by simp [Postgres.toolLoop, toolUseIds]⟩
  | cons b rest ih =>
    intro printed history conn llm exd
    cases b with
    | text t =>
      obtain ⟨k, hk⟩ := ih printed history conn llm exd
      exact ⟨k, by rw [Postgres.toolLoop]; exact hk⟩
    | toolUse i q =>
      rw [Postgres.toolLoop]
      cases hx : execute_query exec conn q with
      | mk r conn' =>
        cases r with
        | error e =>
          obtain ⟨k, hk⟩ := ih printed
            (history ++ [⟨"user", .results [⟨i, e, true⟩]⟩]) conn' llm (exd + 1)
          refine ⟨k + 1, ?_⟩
          dsimp only
          rw [hk, toolResultIds_append]
          simp [toolResultIds, msgResultIds, toolUseIds, List.take_succ_cons,
            List.append_assoc]
        | ok rows =>
          dsimp only
          cases hcl : client (history ++
              [⟨"user", .results [⟨i, showRows rows, false⟩]⟩]) with
          | error e =>
            refine ⟨1, ?_⟩
            dsimp only
            simp [toolResultIds_append, toolResultIds, msgResultIds, toolUseIds]
          | ok fresp =>
            obtain ⟨k, hk⟩ := ih (printed ++ allTexts fresp.content)
              (history ++ [⟨"user", .results [⟨i, showRows rows, false⟩]⟩])
              conn' (llm + 1) (exd + 1)
            refine ⟨k + 1, ?_⟩
            dsimp only
            rw [hk, toolResultIds_append]
            simp [toolResultIds, msgResultIds, toolUseIds, List.take_succ_cons,
              List.append_assoc]

/-! ## Claims -/

/-- C5: whenever the first LLM reply's stop condition is plain completion
(not `"tool_use"`) and the reply contains a text block, the flight
orchestrator returns exactly the first text block's text, and the data
provider `get_aircraft_in_box` is never invoked (`fetchCalls = 0`). -/
theorem C5_plain_completion_returns_first_text
    (client : List (Message FlightInput) → Except String (LLMResponse FlightInput))
    (upstream : Nat → Except String UpstreamStates)
    (fmt : List Aircraft → String)
    (q : String) (resp : LLMResponse FlightInput) (t : String)
    (hc : client [⟨"user", .str q⟩] = .ok resp)
    (hs : resp.stop_reason ≠ "tool_use")
    (ht : firstText resp.content = some t) :
    (Flight.process_claude_conversation client upstream fmt q).result = .ok (some t)
      ∧ (Flight.process_claude_conversation client upstream fmt q).fetchCalls = 0 := by
  rw [flight_run_plain client upstream fmt q resp hc hs]
  exact ⟨by rw [ht], rfl⟩

/-- Witness for C5 at a concrete input: a reply with stop condition
`"end_turn"` and a single text block `"42"` makes the run return `"42"` with
zero provider invocations. -/
theorem C5_witness :
    (Flight.process_claude_conversation
        (fun _ => .ok ⟨"end_turn", [.text "42"]⟩)
        (fun _ => .error "unused") (fun _ => "") "what is six times seven").result
      = .ok (some "42")
    ∧ (Flight.process_claude_conversation
        (fun _ => .ok ⟨"end_turn", [.text "42"]⟩)
        (fun _ => .error "unused") (fun _ => "") "what is six times seven").fetchCalls = 0 :=
  C5_plain_completion_returns_first_text
    (fun _ => .ok ⟨"end_turn", [.text "42"]⟩)
    (fun _ => .error "unused") (fun _ => "") "what is six times seven"
    ⟨"end_turn", [.text "42"]⟩ "42" rfl (by decide) rfl

/-- C6: for every invalid provider input — an out-of-range or min>max
bounding box, or a city name that is empty after stripping — the adapter
fails with the validation error kind (a constructor distinct from the
provider API error kind) and issues zero network calls. -/
theorem C6_validation_fails_before_network
    (min_lat max_lat min_lon max_lon : Rat)
    (upstream : Except String UpstreamStates)
    (city : String) (wup : WeatherUpstream)
    (hbad : ¬ (-90 ≤ min_lat ∧ min_lat ≤ 90 ∧ -90 ≤ max_lat ∧ max_lat ≤ 90)
        ∨ ¬ (-180 ≤ min_lon ∧ min_lon ≤ 180 ∧ -180 ≤ max_lon ∧ max_lon ≤ 180)
        ∨ min_lat > max_lat ∨ min_lon > max_lon)
    (hcity : pyStrip city = "") :
    (∃ m, get_aircraft_in_box min_lat max_lat min_lon max_lon upstream
        = (.error (.validationError m), 0))
      ∧ (∃ m, get_weather city wup = (.error (.validationError m), 0))
      ∧ (∀ a b : String, FlightError.validationError a ≠ FlightError.openSkyAPIError b)
      ∧ (∀ a b : String, WeatherError.validationError a ≠ WeatherError.weatherAPIError b) := by
  refine ⟨?_, ?_, ?_, ?_⟩
  · unfold get_aircraft_in_box
    by_cases h1 : ¬ (-90 ≤ min_lat ∧ min_lat ≤ 90 ∧ -90 ≤ max_lat ∧ max_lat ≤ 90)
    · exact ⟨_, by rw [if_pos h1]⟩
    by_cases h2 : ¬ (-180 ≤ min_lon ∧ min_lon ≤ 180 ∧ -180 ≤ max_lon ∧ max_lon ≤ 180)
    · exact ⟨_, by rw [if_neg h1, if_pos h2]⟩
    have h3 : min_lat > max_lat ∨ min_lon > max_lon := by tauto
    exact ⟨_, by rw [if_neg h1, if_neg h2, if_pos h3]⟩
  · exact ⟨"City name cannot be empty", by simp [get_weather, hcity]⟩
  · intro a b h
    cases h
  · intro a b h
    cases h

/-- Witness for C6 at concrete inputs: a min>max latitude pair and the
whitespace-only city name, each yielding a validation error with zero
network calls. -/
theorem C6_witness :
    ((∃ m, get_aircraft_in_box 50 40 0 0 (.ok ⟨none⟩)
        = (.error (.validationError m), 0))
      ∧ (∃ m, get_weather "  " (.payload
          ⟨20, 19, 50, 1013, 3, 90, "clear sky", 1700000000, "Paris", "FR"⟩)
          = (.error (.validationError m), 0))
      ∧ (∀ a b : String, FlightError.validationError a ≠ FlightError.openSkyAPIError b)
      ∧ (∀ a b : String, WeatherError.validationError a ≠ WeatherError.weatherAPIError b)) :=
  C6_validation_fails_before_network 50 40 0 0 (.ok ⟨none⟩) "  "
    (.payload ⟨20, 19, 50, 1013, 3, 90, "clear sky", 1700000000, "Paris", "FR"⟩)
    (.inr (.inr (.inl (by norm_num)))) (by decide)

/-- C10: `PostgresManager.execute_query` runs any query string
unconditionally — no read-only or SELECT-only restriction is checked — and
on success commits, so the database state produced by the statement (for a
data-modifying statement, a different state) becomes the durable committed
state. -/
theorem C10_execute_query_unconditional_commit {DB Row : Type}
    (exec : String → DB → Except String (List Row × DB))
    (conn : PgConn DB) (query : String) (rows : List Row) (db' : DB)
    (h : exec query conn.current = .ok (rows, db')) :
    execute_query exec conn query = (.ok rows, ⟨db', db'⟩) := by
  unfold execute_query
  rw [h]

/-- Witness for C10 at a concrete input: a data-modifying statement
(modelled as incrementing the state) is executed and committed — the
committed state changes from 0 to 1. -/
theorem C10_witness :
    @execute_query Nat Unit (fun _ db => .ok ([], db + 1)) ⟨0, 0⟩ "DROP TABLE users"
      = (.ok [], ⟨1, 1⟩) :=
  C10_execute_query_unconditional_commit (fun _ db => .ok ([], db + 1)) ⟨0, 0⟩
    "DROP TABLE users" [] 1 rfl

/-- C1 fails on the flight variant: with a first reply requesting tool use
and an upstream request failure, `get_aircraft_in_box` raises
`OpenSkyAPIError` and the flight orchestrator — which has no handler around
tool execution — lets it propagate; no error-flagged ToolResult is appended
to the conversation. -/
theorem C1_counterexample :
    (Flight.process_claude_conversation
        (fun h => if h.length = 1
          then .ok ⟨"tool_use", [.toolUse "toolu_01" ⟨42, 43, 23, 24⟩]⟩
          else .ok ⟨"end_turn", [.text "done"]⟩)
        (fun _ => .error "connection refused")
        (fun _ => "") "show me planes over Sofia").result
      = .error (.providerError (.openSkyAPIError "API request failed: connection refused"))
    ∧ toolResultIds (Flight.process_claude_conversation
        (fun h => if h.length = 1
          then .ok ⟨"tool_use", [.toolUse "toolu_01" ⟨42, 43, 23, 24⟩]⟩
          else .ok ⟨"end_turn", [.text "done"]⟩)
        (fun _ => .error "connection refused")
        (fun _ => "") "show me planes over Sofia").history = [] :=
  ⟨rfl, rfl⟩

/-- C2 fails on the postgres variant: when `execute_query` raises
`DatabaseError`, the `except` branch appends the error-flagged ToolResult
but the function returns with only the one initial LLM call made and no
text produced — the second LLM round does not execute. -/
theorem C2_counterexample :
    (@Postgres.process_claude_conversation Unit Unit
        (fun h => if h.length = 1
          then .ok ⟨"tool_use", [.toolUse "toolu_02" "SELECT 1 FROM nonexistent_table"]⟩
          else .ok ⟨"end_turn", [.text "explained"]⟩)
        (fun _ _ => .error "relation nonexistent_table does not exist")
        (fun _ => "") ⟨(), ()⟩ "count the rows of nonexistent_table").llmCalls = 1
    ∧ (@Postgres.process_claude_conversation Unit Unit
        (fun h => if h.length = 1
          then .ok ⟨"tool_use", [.toolUse "toolu_02" "SELECT 1 FROM nonexistent_table"]⟩
          else .ok ⟨"end_turn", [.text "explained"]⟩)
        (fun _ _ => .error "relation nonexistent_table does not exist")
        (fun _ => "") ⟨(), ()⟩ "count the rows of nonexistent_table").printed = [] :=
  ⟨rfl, rfl⟩

/-- C3: evaluating the flight orchestrator at the failing input — the first
reply requests the tool, the second reply contains no text block (and the
first contained none either) — yields Python's implicit `return None`
(modelled `.ok none`), not an explicit empty/failure `str` result. -/
theorem C3_silent_none_on_missing_text :
    (Flight.process_claude_conversation
        (fun h => if h.length = 1
          then .ok ⟨"tool_use", [.toolUse "toolu_03" ⟨42, 43, 23, 24⟩]⟩
          else .ok ⟨"end_turn", []⟩)
        (fun _ => .ok ⟨none⟩)
        (fun _ => "[]") "show me planes over Sofia").result = .ok none
    ∧ (Flight.process_claude_conversation
        (fun h => if h.length = 1
          then .ok ⟨"tool_use", [.toolUse "toolu_03" ⟨42, 43, 23, 24⟩]⟩
          else .ok ⟨"end_turn", []⟩)
        (fun _ => .ok ⟨none⟩)
        (fun _ => "[]") "show me planes over Sofia").llmCalls = 2 :=
  ⟨rfl, rfl⟩

/-- C4 fails on a record with a null timestamp: in a valid bounding box, a
state whose five checked fields (longitude, latitude, altitude, velocity,
heading) are non-null but whose `state[3]` (timestamp) is null is not
skipped — `datetime.fromtimestamp(None)` raises a `TypeError` that the
`except` clause does not catch, so the whole fetch fails. -/
theorem C4_counterexample :
    get_aircraft_in_box 42 43 23 24
        (.ok ⟨some [⟨"abc123", none, "Bulgaria", none,
          some 23, some 42, some 1000, some 250, some 90⟩]⟩)
      = (.error (.typeError "an integer is required (got type NoneType)"), 1) :=
  rfl

/-- C4 amended: for every valid bounding box, records with a null among the
five checked fields (longitude, latitude, altitude, velocity, heading) are
skipped individually and the fetch returns exactly the records passing the
check — but the timestamp field is NOT among the checked fields, so this
holds only for upstream responses in which every record passing the check
has a non-null timestamp (otherwise the whole fetch fails, see the
counterexample). -/
theorem C4_amended_null_checked_fields_skipped
    (min_lat max_lat min_lon max_lon : Rat) (data : UpstreamStates)
    (h1 : -90 ≤ min_lat ∧ min_lat ≤ 90 ∧ -90 ≤ max_lat ∧ max_lat ≤ 90)
    (h2 : -180 ≤ min_lon ∧ min_lon ≤ 180 ∧ -180 ≤ max_lon ∧ max_lon ≤ 180)
    (h3 : min_lat ≤ max_lat ∧ min_lon ≤ max_lon)
    (hts : ∀ s ∈ data.states.getD [], criticalPresent s → s.time_position.isSome) :
    get_aircraft_in_box min_lat max_lat min_lon max_lon (.ok data)
      = (.ok (((data.states.getD []).filter
          (fun s => criticalPresent s)).map aircraftOfState), 1) := by
  unfold get_aircraft_in_box
  rw [if_neg (not_not_intro h1), if_neg (not_not_intro h2),
    if_neg (not_or.mpr ⟨not_lt.mpr h3.1, not_lt.mpr h3.2⟩)]
  rcases data with ⟨_ | l⟩
  · simp
  · cases l with
    | nil => simp
    | cons s rest =>
      simp only [Option.getD] at hts ⊢
      rw [buildAircraftList_ok (s :: rest) hts]

/-- Witness for C4 amended at a concrete input: of three records — one
complete, one with a null longitude, one with a null velocity — only the
complete one is returned. -/
theorem C4_amended_witness :
    get_aircraft_in_box 42 43 23 24
        (.ok ⟨some
          [⟨"abc123", some "LZ123", "Bulgaria", some 1700000000,
            some 23, some 42, some 1000, some 250, some 90⟩,
           ⟨"def456", none, "Greece", some 1700000000,
            none, some 42, some 1000, some 250, some 90⟩,
           ⟨"ghi789", none, "Serbia", some 1700000000,
            some 23, some 42, some 1000, none, some 90⟩]⟩)
      = (.ok [⟨"abc123", some (pyStrip "LZ123"), "Bulgaria",
          23, 42, 1000, 250, 90, 1700000000⟩], 1) :=
  C4_amended_null_checked_fields_skipped 42 43 23 24
    ⟨some
      [⟨"abc123", some "LZ123", "Bulgaria", some 1700000000,
        some 23, some 42, some 1000, some 250, some 90⟩,
       ⟨"def456", none, "Greece", some 1700000000,
        none, some 42, some 1000, some 250, some 90⟩,
       ⟨"ghi789", none, "Serbia", some 1700000000,
        some 23, some 42, some 1000, none, some 90⟩]⟩
    (by norm_num) (by norm_num) (by norm_num) (by decide)

/-- C7 fails in its last part: on the success path the flight orchestrator
does make the second LLM call (`llmCalls = 2`) but never appends the second
reply, so the conversation ends with the `user` turn holding the ToolResult,
not with an assistant turn. -/
theorem C7_counterexample :
    (Flight.process_claude_conversation
        (fun h => if h.length = 1
          then .ok ⟨"tool_use", [.toolUse "toolu_07" ⟨42, 43, 23, 24⟩]⟩
          else .ok ⟨"end_turn", [.text "no planes right now"]⟩)
        (fun _ => .ok ⟨none⟩)
        (fun _ => "[]") "show me planes over Sofia").llmCalls = 2
    ∧ (Flight.process_claude_conversation
        (fun h => if h.length = 1
          then .ok ⟨"tool_use", [.toolUse "toolu_07" ⟨42, 43, 23, 24⟩]⟩
          else .ok ⟨"end_turn", [.text "no planes right now"]⟩)
        (fun _ => .ok ⟨none⟩)
        (fun _ => "[]") "show me planes over Sofia").history.map (fun m => m.role)
      = ["user", "assistant", "user"] :=
  ⟨rfl, rfl⟩

/-- C1 amended: the postgres and weather variants catch their provider
domain error (`DatabaseError`, `WeatherAPIError`) raised during tool
execution and append an error-flagged ToolResult carrying the error message;
the flight variant has no such handler, so the provider error propagates out
of `process_claude_conversation` and no ToolResult is appended. -/
theorem C1_amended_error_tool_result {DB Row : Type}
    (clientP : List (Message String) → Except String (LLMResponse String))
    (exec : String → DB → Except String (List Row × DB))
    (showRows : List Row → String) (conn0 : PgConn DB)
    (qP : String) (respP : LLMResponse String) (idP qs e : String)
    (hcP : clientP [⟨"user", .str qP⟩] = .ok respP)
    (hsP : respP.stop_reason = "tool_use")
    (hbP : respP.content = [.toolUse idP qs])
    (heP : exec qs conn0.current = .error e)
    (clientW : List (Message String) → Except String (LLMResponse String))
    (upstreamW : Nat → WeatherUpstream) (fmtW : WeatherData → String)
    (qW : String) (respW : LLMResponse String) (idW city eW : String)
    (hcW : clientW [⟨"user", .str qW⟩] = .ok respW)
    (hsW : respW.stop_reason = "tool_use")
    (hbW : respW.content = [.toolUse idW city])
    (hvW : ¬ pyStrip city = "")
    (huW : upstreamW 0 = .requestFail eW)
    (clientF : List (Message FlightInput) → Except String (LLMResponse FlightInput))
    (upstreamF : Nat → Except String UpstreamStates)
    (fmtF : List Aircraft → String)
    (qF : String) (respF : LLMResponse FlightInput) (idF : String)
    (inp : FlightInput) (eF : FlightError) (nF : Nat)
    (hcF : clientF [⟨"user", .str qF⟩] = .ok respF)
    (hsF : respF.stop_reason = "tool_use")
    (hbF : respF.content = [.toolUse idF inp])
    (heF : get_aircraft_in_box inp.min_lat inp.max_lat inp.min_lon inp.max_lon
        (upstreamF 0) = (.error eF, nF)) :
    ((Postgres.process_claude_conversation clientP exec showRows conn0 qP).outcome = .ok ()
      ∧ (Postgres.process_claude_conversation clientP exec showRows conn0 qP).history
        = [⟨"user", .str qP⟩, ⟨"assistant", .blocks respP.content⟩,
           ⟨"user", .results [⟨idP, "Failed to execute query: " ++ e, true⟩]⟩])
    ∧ ((Weather.process_claude_conversation clientW upstreamW fmtW qW).outcome = .ok ()
      ∧ (Weather.process_claude_conversation clientW upstreamW fmtW qW).history
        = [⟨"user", .str qW⟩, ⟨"assistant", .blocks respW.content⟩,
           ⟨"user", .results [⟨idW, "API request failed: " ++ eW, true⟩]⟩])
    ∧ ((Flight.process_claude_conversation clientF upstreamF fmtF qF).result
        = .error (.providerError eF)
      ∧ toolResultIds (Flight.process_claude_conversation clientF upstreamF fmtF qF).history
        = []) := by
  refine ⟨?_, ?_, ?_⟩
  · rw [pg_run_tool_use clientP exec showRows conn0 qP respP hcP hsP, hbP]
    have hx : execute_query exec conn0 qs
        = (.error ("Failed to execute query: " ++ e), conn0) := by
      unfold execute_query
      rw [heP]
    rw [Postgres.toolLoop, hx]
    exact ⟨rfl, rfl⟩
  · rw [weather_run_tool_use clientW upstreamW fmtW qW respW hcW hsW, hbW]
    have hx : get_weather city (upstreamW 0)
        = (.error (.weatherAPIError ("API request failed: " ++ eW)), 1) := by
      unfold get_weather
      rw [if_neg hvW, huW]
    rw [Weather.toolLoop, hx]
    exact ⟨rfl, rfl⟩
  · rw [flight_run_tool_use clientF upstreamF fmtF qF respF hcF hsF, hbF]
    rw [Flight.toolLoop, heF]
    exact ⟨rfl, rfl⟩

/-- Witness for C1 amended at concrete inputs: a failing SQL statement, an
unreachable weather API, and an unreachable OpenSky API. -/
theorem C1_amended_witness :
    ((@Postgres.process_claude_conversation Unit Unit
        (fun _ => .ok ⟨"tool_use", [.toolUse "tp" "SELECT 1 FROM nonexistent_table"]⟩)
        (fun _ _ => .error "relation does not exist")
        (fun _ => "") ⟨(), ()⟩ "q1").outcome = .ok ()
      ∧ (@Postgres.process_claude_conversation Unit Unit
        (fun _ => .ok ⟨"tool_use", [.toolUse "tp" "SELECT 1 FROM nonexistent_table"]⟩)
        (fun _ _ => .error "relation does not exist")
        (fun _ => "") ⟨(), ()⟩ "q1").history
        = [⟨"user", .str "q1"⟩,
           ⟨"assistant", .blocks [.toolUse "tp" "SELECT 1 FROM nonexistent_table"]⟩,
           ⟨"user", .results
             [⟨"tp", "Failed to execute query: " ++ "relation does not exist", true⟩]⟩])
    ∧ ((Weather.process_claude_conversation
        (fun _ => .ok ⟨"tool_use", [.toolUse "tw" "Paris"]⟩)
        (fun _ => .requestFail "timeout") (fun _ => "") "q2").outcome = .ok ()
      ∧ (Weather.process_claude_conversation
        (fun _ => .ok ⟨"tool_use", [.toolUse "tw" "Paris"]⟩)
        (fun _ => .requestFail "timeout") (fun _ => "") "q2").history
        = [⟨"user", .str "q2"⟩,
           ⟨"assistant", .blocks [.toolUse "tw" "Paris"]⟩,
           ⟨"user", .results [⟨"tw", "API request failed: " ++ "timeout", true⟩]⟩])
    ∧ ((Flight.process_claude_conversation
        (fun _ => .ok ⟨"tool_use", [.toolUse "tf" ⟨42, 43, 23, 24⟩]⟩)
        (fun _ => .error "unreachable") (fun _ => "") "q3").result
        = .error (.providerError (.openSkyAPIError ("API request failed: " ++ "unreachable")))
      ∧ toolResultIds (Flight.process_claude_conversation
        (fun _ => .ok ⟨"tool_use", [.toolUse "tf" ⟨42, 43, 23, 24⟩]⟩)
        (fun _ => .error "unreachable") (fun _ => "") "q3").history = []) :=
  C1_amended_error_tool_result
    (fun _ => .ok ⟨"tool_use", [.toolUse "tp" "SELECT 1 FROM nonexistent_table"]⟩)
    (fun _ _ => .error "relation does not exist") (fun _ => "") ⟨(), ()⟩
    "q1" ⟨"tool_use", [.toolUse "tp" "SELECT 1 FROM nonexistent_table"]⟩
    "tp" "SELECT 1 FROM nonexistent_table" "relation does not exist"
    rfl rfl rfl rfl
    (fun _ => .ok ⟨"tool_use", [.toolUse "tw" "Paris"]⟩)
    (fun _ => .requestFail "timeout") (fun _ => "")
    "q2" ⟨"tool_use", [.toolUse "tw" "Paris"]⟩ "tw" "Paris" "timeout"
    rfl rfl rfl (by decide) rfl
    (fun _ => .ok ⟨"tool_use", [.toolUse "tf" ⟨42, 43, 23, 24⟩]⟩)
    (fun _ => .error "unreachable") (fun _ => "")
    "q3" ⟨"tool_use", [.toolUse "tf" ⟨42, 43, 23, 24⟩]⟩ "tf"
    ⟨42, 43, 23, 24⟩ (.openSkyAPIError ("API request failed: " ++ "unreachable")) 1
    rfl rfl rfl rfl

/-- C2 amended: when tool execution fails with the provider domain error (a
single tool-invocation block scenario), the postgres and weather
orchestrators append the error-flagged ToolResult and finish the run with
only the one initial LLM call: no second LLM call is issued, no explanatory
text is produced, and no unhandled exception escapes. -/
theorem C2_amended_no_second_round_on_error {DB Row : Type}
    (clientP : List (Message String) → Except String (LLMResponse String))
    (exec : String → DB → Except String (List Row × DB))
    (showRows : List Row → String) (conn0 : PgConn DB)
    (qP : String) (respP : LLMResponse String) (idP qs e : String)
    (hcP : clientP [⟨"user", .str qP⟩] = .ok respP)
    (hsP : respP.stop_reason = "tool_use")
    (hbP : respP.content = [.toolUse idP qs])
    (heP : exec qs conn0.current = .error e)
    (clientW : List (Message String) → Except String (LLMResponse String))
    (upstreamW : Nat → WeatherUpstream) (fmtW : WeatherData → String)
    (qW : String) (respW : LLMResponse String) (idW city eW : String)
    (hcW : clientW [⟨"user", .str qW⟩] = .ok respW)
    (hsW : respW.stop_reason = "tool_use")
    (hbW : respW.content = [.toolUse idW city])
    (hvW : ¬ pyStrip city = "")
    (huW : upstreamW 0 = .requestFail eW) :
    ((Postgres.process_claude_conversation clientP exec showRows conn0 qP).outcome = .ok ()
      ∧ (Postgres.process_claude_conversation clientP exec showRows conn0 qP).llmCalls = 1
      ∧ (Postgres.process_claude_conversation clientP exec showRows conn0 qP).printed = [])
    ∧ ((Weather.process_claude_conversation clientW upstreamW fmtW qW).outcome = .ok ()
      ∧ (Weather.process_claude_conversation clientW upstreamW fmtW qW).llmCalls = 1
      ∧ (Weather.process_claude_conversation clientW upstreamW fmtW qW).printed = []) := by
  constructor
  · rw [pg_run_tool_use clientP exec showRows conn0 qP respP hcP hsP, hbP]
    have hx : execute_query exec conn0 qs
        = (.error ("Failed to execute query: " ++ e), conn0) := by
      unfold execute_query
      rw [heP]
    rw [Postgres.toolLoop, hx]
    exact ⟨rfl, rfl, rfl⟩
  · rw [weather_run_tool_use clientW upstreamW fmtW qW respW hcW hsW, hbW]
    have hx : get_weather city (upstreamW 0)
        = (.error (.weatherAPIError ("API request failed: " ++ eW)), 1) := by
      unfold get_weather
      rw [if_neg hvW, huW]
    rw [Weather.toolLoop, hx]
    exact ⟨rfl, rfl, rfl⟩

/-- Witness for C2 amended at concrete inputs: the Scenario C query against
a nonexistent table, and an unreachable weather API. -/
theorem C2_amended_witness :
    ((@Postgres.process_claude_conversation Unit Unit
        (fun _ => .ok ⟨"tool_use", [.toolUse "tp2" "SELECT 1 FROM nonexistent_table"]⟩)
        (fun _ _ => .error "relation does not exist")
        (fun _ => "") ⟨(), ()⟩ "q4").outcome = .ok ()
      ∧ (@Postgres.process_claude_conversation Unit Unit
        (fun _ => .ok ⟨"tool_use", [.toolUse "tp2" "SELECT 1 FROM nonexistent_table"]⟩)
        (fun _ _ => .error "relation does not exist")
        (fun _ => "") ⟨(), ()⟩ "q4").llmCalls = 1
      ∧ (@Postgres.process_claude_conversation Unit Unit
        (fun _ => .ok ⟨"tool_use", [.toolUse "tp2" "SELECT 1 FROM nonexistent_table"]⟩)
        (fun _ _ => .error "relation does not exist")
        (fun _ => "") ⟨(), ()⟩ "q4").printed = [])
    ∧ ((Weather.process_claude_conversation
        (fun _ => .ok ⟨"tool_use", [.toolUse "tw2" "Paris"]⟩)
        (fun _ => .requestFail "timeout") (fun _ => "") "q5").outcome = .ok ()
      ∧ (Weather.process_claude_conversation
        (fun _ => .ok ⟨"tool_use", [.toolUse "tw2" "Paris"]⟩)
        (fun _ => .requestFail "timeout") (fun _ => "") "q5").llmCalls = 1
      ∧ (Weather.process_claude_conversation
        (fun _ => .ok ⟨"tool_use", [.toolUse "tw2" "Paris"]⟩)
        (fun _ => .requestFail "timeout") (fun _ => "") "q5").printed = []) :=
  C2_amended_no_second_round_on_error
    (fun _ => .ok ⟨"tool_use", [.toolUse "tp2" "SELECT 1 FROM nonexistent_table"]⟩)
    (fun _ _ => .error "relation does not exist") (fun _ => "") ⟨(), ()⟩
    "q4" ⟨"tool_use", [.toolUse "tp2" "SELECT 1 FROM nonexistent_table"]⟩
    "tp2" "SELECT 1 FROM nonexistent_table" "relation does not exist"
    rfl rfl rfl rfl
    (fun _ => .ok ⟨"tool_use", [.toolUse "tw2" "Paris"]⟩)
    (fun _ => .requestFail "timeout") (fun _ => "")
    "q5" ⟨"tool_use", [.toolUse "tw2" "Paris"]⟩ "tw2" "Paris" "timeout"
    rfl rfl rfl (by decide) rfl

/-- C7 amended: in a run that reaches the tool-execution round and succeeds,
the orchestrator does send the updated conversation to the LLM a second time
(`llmCalls = 2`), but the second reply is never appended to the
conversation: the final `message_history` ends with the `user` turn holding
the ToolResult (shown for the flight and postgres variants, single
tool-invocation block). -/
theorem C7_amended_second_reply_not_appended {DB Row : Type}
    (clientF : List (Message FlightInput) → Except String (LLMResponse FlightInput))
    (upstreamF : Nat → Except String UpstreamStates)
    (fmtF : List Aircraft → String)
    (qF : String) (respF frespF : LLMResponse FlightInput) (idF : String)
    (inp : FlightInput) (la : List Aircraft) (nF : Nat) (tF : String)
    (hcF : clientF [⟨"user", .str qF⟩] = .ok respF)
    (hsF : respF.stop_reason = "tool_use")
    (hbF : respF.content = [.toolUse idF inp])
    (hfF : get_aircraft_in_box inp.min_lat inp.max_lat inp.min_lon inp.max_lon
        (upstreamF 0) = (.ok la, nF))
    (hc2F : clientF [⟨"user", .str qF⟩, ⟨"assistant", .blocks respF.content⟩,
        ⟨"user", .results [⟨idF, fmtF la, false⟩]⟩] = .ok frespF)
    (htF : firstText frespF.content = some tF)
    (clientP : List (Message String) → Except String (LLMResponse String))
    (exec : String → DB → Except String (List Row × DB))
    (showRows : List Row → String) (conn0 : PgConn DB)
    (qP : String) (respP frespP : LLMResponse String) (idP qs : String)
    (rows : List Row) (db' : DB)
    (hcP : clientP [⟨"user", .str qP⟩] = .ok respP)
    (hsP : respP.stop_reason = "tool_use")
    (hbP : respP.content = [.toolUse idP qs])
    (heP : exec qs conn0.current = .ok (rows, db'))
    (hc2P : clientP [⟨"user", .str qP⟩, ⟨"assistant", .blocks respP.content⟩,
        ⟨"user", .results [⟨idP, showRows rows, false⟩]⟩] = .ok frespP) :
    ((Flight.process_claude_conversation clientF upstreamF fmtF qF).result = .ok (some tF)
      ∧ (Flight.process_claude_conversation clientF upstreamF fmtF qF).llmCalls = 2
      ∧ (Flight.process_claude_conversation clientF upstreamF fmtF qF).history
        = [⟨"user", .str qF⟩, ⟨"assistant", .blocks respF.content⟩,
           ⟨"user", .results [⟨idF, fmtF la, false⟩]⟩])
    ∧ ((Postgres.process_claude_conversation clientP exec showRows conn0 qP).outcome = .ok ()
      ∧ (Postgres.process_claude_conversation clientP exec showRows conn0 qP).llmCalls = 2
      ∧ (Postgres.process_claude_conversation clientP exec showRows conn0 qP).history
        = [⟨"user", .str qP⟩, ⟨"assistant", .blocks respP.content⟩,
           ⟨"user", .results [⟨idP, showRows rows, false⟩]⟩]
      ∧ (Postgres.process_claude_conversation clientP exec showRows conn0 qP).printed
        = allTexts frespP.content) := by
  constructor
  · rw [hbF] at hc2F
    rw [flight_run_tool_use clientF upstreamF fmtF qF respF hcF hsF, hbF]
    rw [Flight.toolLoop, hfF]
    simp only [List.cons_append, List.nil_append]
    rw [hc2F]
    dsimp only
    rw [htF]
    exact ⟨rfl, rfl, rfl⟩
  · rw [hbP] at hc2P
    rw [pg_run_tool_use clientP exec showRows conn0 qP respP hcP hsP, hbP]
    have hx : execute_query exec conn0 qs = (.ok rows, ⟨db', db'⟩) := by
      unfold execute_query
      rw [heP]
    rw [Postgres.toolLoop, hx]
    simp only [List.cons_append, List.nil_append]
    rw [hc2P]
    dsimp only
    rw [Postgres.toolLoop]
    exact ⟨rfl, rfl, rfl, rfl⟩

/-- Witness for C7 amended at concrete inputs: an empty sky for the flight
variant, a one-row-less query result for the postgres variant. -/
theorem C7_amended_witness :
    ((Flight.process_claude_conversation
        (fun h => if h.length = 1
          then .ok ⟨"tool_use", [.toolUse "tf7" ⟨42, 43, 23, 24⟩]⟩
          else .ok ⟨"end_turn", [.text "empty sky"]⟩)
        (fun _ => .ok ⟨none⟩) (fun _ => "[]") "q6").result = .ok (some "empty sky")
      ∧ (Flight.process_claude_conversation
        (fun h => if h.length = 1
          then .ok ⟨"tool_use", [.toolUse "tf7" ⟨42, 43, 23, 24⟩]⟩
          else .ok ⟨"end_turn", [.text "empty sky"]⟩)
        (fun _ => .ok ⟨none⟩) (fun _ => "[]") "q6").llmCalls = 2
      ∧ (Flight.process_claude_conversation
        (fun h => if h.length = 1
          then .ok ⟨"tool_use", [.toolUse "tf7" ⟨42, 43, 23, 24⟩]⟩
          else .ok ⟨"end_turn", [.text "empty sky"]⟩)
        (fun _ => .ok ⟨none⟩) (fun _ => "[]") "q6").history
        = [⟨"user", .str "q6"⟩,
           ⟨"assistant", .blocks [.toolUse "tf7" ⟨42, 43, 23, 24⟩]⟩,
           ⟨"user", .results [⟨"tf7", "[]", false⟩]⟩])
    ∧ ((@Postgres.process_claude_conversation Nat Nat
        (fun h => if h.length = 1
          then .ok ⟨"tool_use", [.toolUse "tp7" "SELECT 1"]⟩
          else .ok ⟨"end_turn", [.text "one row"]⟩)
        (fun _ db => .ok ([1], db)) (fun _ => "rows") ⟨0, 0⟩ "q7").outcome = .ok ()
      ∧ (@Postgres.process_claude_conversation Nat Nat
        (fun h => if h.length = 1
          then .ok ⟨"tool_use", [.toolUse "tp7" "SELECT 1"]⟩
          else .ok ⟨"end_turn", [.text "one row"]⟩)
        (fun _ db => .ok ([1], db)) (fun _ => "rows") ⟨0, 0⟩ "q7").llmCalls = 2
      ∧ (@Postgres.process_claude_conversation Nat Nat
        (fun h => if h.length = 1
          then .ok ⟨"tool_use", [.toolUse "tp7" "SELECT 1"]⟩
          else .ok ⟨"end_turn", [.text "one row"]⟩)
        (fun _ db => .ok ([1], db)) (fun _ => "rows") ⟨0, 0⟩ "q7").history
        = [⟨"user", .str "q7"⟩,
           ⟨"assistant", .blocks [.toolUse "tp7" "SELECT 1"]⟩,
           ⟨"user", .results [⟨"tp7", "rows", false⟩]⟩]
      ∧ (@Postgres.process_claude_conversation Nat Nat
        (fun h => if h.length = 1
          then .ok ⟨"tool_use", [.toolUse "tp7" "SELECT 1"]⟩
          else .ok ⟨"end_turn", [.text "one row"]⟩)
        (fun _ db => .ok ([1], db)) (fun _ => "rows") ⟨0, 0⟩ "q7").printed
        = ["one row"]) :=
  C7_amended_second_reply_not_appended
    (fun h => if h.length = 1
      then .ok ⟨"tool_use", [.toolUse "tf7" ⟨42, 43, 23, 24⟩]⟩
      else .ok ⟨"end_turn", [.text "empty sky"]⟩)
    (fun _ => .ok ⟨none⟩) (fun _ => "[]") "q6"
    ⟨"tool_use", [.toolUse "tf7" ⟨42, 43, 23, 24⟩]⟩
    ⟨"end_turn", [.text "empty sky"]⟩ "tf7" ⟨42, 43, 23, 24⟩ [] 1 "empty sky"
    rfl rfl rfl rfl rfl rfl
    (fun h => if h.length = 1
      then .ok ⟨"tool_use", [.toolUse "tp7" "SELECT 1"]⟩
      else .ok ⟨"end_turn", [.text "one row"]⟩)
    (fun _ db => .ok ([1], db)) (fun _ => "rows") ⟨0, 0⟩ "q7"
    ⟨"tool_use", [.toolUse "tp7" "SELECT 1"]⟩
    ⟨"end_turn", [.text "one row"]⟩ "tp7" "SELECT 1" [1] 0
    rfl rfl rfl rfl rfl

/-- C9 fails on the postgres variant: with two tool-use blocks in the first
reply, the block loop (which has no break) dispatches both — `execute_query`
runs twice and two ToolResults are appended, one per block. -/
theorem C9_counterexample :
    (@Postgres.process_claude_conversation Nat Nat
        (fun h => if h.length = 1
          then .ok ⟨"tool_use", [.toolUse "toolu_t1" "SELECT 1", .toolUse "toolu_t2" "SELECT 2"]⟩
          else .ok ⟨"end_turn", [.text "both ran"]⟩)
        (fun _ db => .ok ([], db))
        (fun _ => "") ⟨0, 0⟩ "run two queries").execCalls = 2
    ∧ toolResultIds (@Postgres.process_claude_conversation Nat Nat
        (fun h => if h.length = 1
          then .ok ⟨"tool_use", [.toolUse "toolu_t1" "SELECT 1", .toolUse "toolu_t2" "SELECT 2"]⟩
          else .ok ⟨"end_turn", [.text "both ran"]⟩)
        (fun _ db => .ok ([], db))
        (fun _ => "") ⟨0, 0⟩ "run two queries").history = ["toolu_t1", "toolu_t2"] :=
  ⟨rfl, rfl⟩

/-- C8: every ToolResult appended to the conversation — on the success path
and on the error path alike — carries as `tool_use_id` the id of the
tool-use block it was produced from: the sequence of appended result ids is
a prefix of the reply's tool-use ids in dispatch order (flight and postgres
variants). -/
theorem C8_tool_result_correlation {DB Row : Type}
    (clientF : List (Message FlightInput) → Except String (LLMResponse FlightInput))
    (upstreamF : Nat → Except String UpstreamStates)
    (fmtF : List Aircraft → String)
    (qF : String) (respF : LLMResponse FlightInput)
    (hcF : clientF [⟨"user", .str qF⟩] = .ok respF)
    (clientP : List (Message String) → Except String (LLMResponse String))
    (exec : String → DB → Except String (List Row × DB))
    (showRows : List Row → String) (conn0 : PgConn DB)
    (qP : String) (respP : LLMResponse String)
    (hcP : clientP [⟨"user", .str qP⟩] = .ok respP) :
    (∃ k, toolResultIds
        (Flight.process_claude_conversation clientF upstreamF fmtF qF).history
      = (toolUseIds respF.content).take k)
    ∧ (∃ k, toolResultIds
        (Postgres.process_claude_conversation clientP exec showRows conn0 qP).history
      = (toolUseIds respP.content).take k) := by
  constructor
  · by_cases hs : respF.stop_reason = "tool_use"
    · rw [flight_run_tool_use clientF upstreamF fmtF qF respF hcF hs]
      obtain ⟨k, hk⟩ := flight_toolLoop_resultIds clientF upstreamF fmtF respF
        respF.content [⟨"user", .str qF⟩, ⟨"assistant", .blocks respF.content⟩] 1 0
      refine ⟨k, ?_⟩
      rw [hk]
      simp [toolResultIds, msgResultIds]
    · rw [flight_run_plain clientF upstreamF fmtF qF respF hcF hs]
      exact ⟨0, by simp [toolResultIds, msgResultIds]⟩
  · by_cases hs : respP.stop_reason = "tool_use"
    · rw [pg_run_tool_use clientP exec showRows conn0 qP respP hcP hs]
      obtain ⟨k, hk⟩ := pg_toolLoop_resultIds clientP exec showRows
        respP.content [] [⟨"user", .str qP⟩, ⟨"assistant", .blocks respP.content⟩]
        conn0 1 0
      refine ⟨k, ?_⟩
      rw [hk]
      simp [toolResultIds, msgResultIds]
    · rw [pg_run_plain clientP exec showRows conn0 qP respP hcP hs]
      exact ⟨0, by simp [toolResultIds, msgResultIds]⟩

/-- Witness for C8 at concrete inputs: one dispatched block per variant,
whose appended result id list is a prefix of the reply's tool-use ids. -/
theorem C8_witness :
    (∃ k, toolResultIds
        (Flight.process_claude_conversation
          (fun _ => .ok ⟨"tool_use", [.toolUse "w1" ⟨42, 43, 23, 24⟩]⟩)
          (fun _ => .ok ⟨none⟩) (fun _ => "[]") "q8").history
      = (toolUseIds [Block.toolUse "w1" (⟨42, 43, 23, 24⟩ : FlightInput)]).take k)
    ∧ (∃ k, toolResultIds
        (@Postgres.process_claude_conversation Nat Nat
          (fun _ => .ok ⟨"tool_use", [.toolUse "w2" "SELECT 1"]⟩)
          (fun _ db => .ok ([1], db)) (fun _ => "rows") ⟨0, 0⟩ "q9").history
      = (toolUseIds [Block.toolUse "w2" "SELECT 1"]).take k) :=
  C8_tool_result_correlation
    (fun _ => .ok ⟨"tool_use", [.toolUse "w1" ⟨42, 43, 23, 24⟩]⟩)
    (fun _ => .ok ⟨none⟩) (fun _ => "[]") "q8"
    ⟨"tool_use", [.toolUse "w1" ⟨42, 43, 23, 24⟩]⟩ rfl
    (fun _ => .ok ⟨"tool_use", [.toolUse "w2" "SELECT 1"]⟩)
    (fun _ db => .ok ([1], db)) (fun _ => "rows") ⟨0, 0⟩ "q9"
    ⟨"tool_use", [.toolUse "w2" "SELECT 1"]⟩ rfl

/-- The postgres tool loop, when every LLM call succeeds, dispatches every
tool-use block of the remaining block list: `execute_query` runs once per
tool-use block. -/
theorem pg_toolLoop_execCalls {DB Row : Type}
    (client : List (Message String) → Except String (LLMResponse String))
    (exec : String → DB → Except String (List Row × DB))
    (showRows : List Row → String)
    (htot : ∀ h, ∃ r, client h = .ok r) :
    ∀ (blocks : List (Block String)) (printed : List String)
      (history : List (Message String)) (conn : PgConn DB) (llm exd : Nat),
      (Postgres.toolLoop client exec showRows printed history conn llm exd blocks).execCalls
        = exd + (toolUseIds blocks).length := by
  intro blocks
  induction blocks with
  | nil =>
    intro printed history conn llm exd
    simp [Postgres.toolLoop, toolUseIds]
  | cons b rest ih =>
    intro printed history conn llm exd
    cases b with
    | text t =>
      rw [Postgres.toolLoop, ih printed history conn llm exd]
      simp [toolUseIds]
    | toolUse i q =>
      rw [Postgres.toolLoop]
      cases hx : execute_query exec conn q with
      | mk r conn' =>
        cases r with
        | error e =>
          dsimp only
          rw [ih]
          simp [toolUseIds]
          omega
        | ok rows =>
          dsimp only
          obtain ⟨fresp, hfr⟩ := htot
            (history ++ [⟨"user", .results [⟨i, showRows rows, false⟩]⟩])
          rw [hfr]
          dsimp only
          rw [ih]
          simp [toolUseIds]
          omega

/-- C9 amended: the postgres orchestrator does not read only the first
tool-invocation block — its block loop has no break, so (whenever the LLM
calls succeed) every tool-use block of the first reply is dispatched:
`execute_query` is invoked exactly once per tool-use block, later blocks
included. -/
theorem C9_amended_all_blocks_dispatched {DB Row : Type}
    (client : List (Message String) → Except String (LLMResponse String))
    (exec : String → DB → Except String (List Row × DB))
    (showRows : List Row → String) (conn0 : PgConn DB)
    (q : String) (resp : LLMResponse String)
    (hc : client [⟨"user", .str q⟩] = .ok resp)
    (hs : resp.stop_reason = "tool_use")
    (htot : ∀ h, ∃ r, client h = .ok r) :
    (Postgres.process_claude_conversation client exec showRows conn0 q).execCalls
      = (toolUseIds resp.content).length := by
  rw [pg_run_tool_use client exec showRows conn0 q resp hc hs]
  rw [pg_toolLoop_execCalls client exec showRows htot resp.content []
    [⟨"user", .str q⟩, ⟨"assistant", .blocks resp.content⟩] conn0 1 0]
  exact Nat.zero_add _

/-- Witness for C9 amended at a concrete input: a reply with two tool-use
blocks makes `execute_query` run twice. -/
theorem C9_amended_witness :
    (@Postgres.process_claude_conversation Nat Nat
        (fun _ => .ok ⟨"tool_use", [.toolUse "x1" "SELECT 1", .toolUse "x2" "SELECT 2"]⟩)
        (fun _ db => .ok ([], db)) (fun _ => "") ⟨0, 0⟩ "q10").execCalls = 2 :=
  C9_amended_all_blocks_dispatched
    (fun _ => .ok ⟨"tool_use", [.toolUse "x1" "SELECT 1", .toolUse "x2" "SELECT 2"]⟩)
    (fun _ db => .ok ([], db)) (fun _ => "") ⟨0, 0⟩ "q10"
    ⟨"tool_use", [.toolUse "x1" "SELECT 1", .toolUse "x2" "SELECT 2"]⟩
    rfl rfl (fun _ => ⟨_, rfl⟩)

end ChatWithStuff
